import Mathlib

/-!
Verification of the derived-metrics pipeline of the Signal sports-analytics
repository: numeric utilities (`src/utils.py`), fatigue scoring, the
rolling-average prop validator, and the nearest-neighbor player-similarity
search (`src/models.py`).

Numbers are modelled as exact rationals.  A cell of a data frame is an
`Option ℚ`, with `none` playing the role of NaN / a missing value, which is
how the pandas/numpy layer represents absent data.
-/

namespace Signal

/-- A NaN-aware numeric cell: `none` models NaN (missing value). -/
abbrev Cell := Option ℚ

/-- `clamp` from `src/utils.py`: `float(max(lower, min(value, upper)))`. -/
def clamp (value lower upper : ℚ) : ℚ :=
  max lower (min value upper)

/-- `np.nanmean`: the mean of the non-NaN entries; NaN (`none`) when there is
no non-NaN entry (numpy's mean of an empty slice). -/
def nanmean (values : List Cell) : Cell :=
  let finite := values.filterMap id
  if finite.isEmpty then none else some (finite.sum / finite.length)

/-- `safe_mean` from `src/utils.py`: `0.0` on an empty input, otherwise
`float(np.nanmean(values))`. -/
def safe_mean (values : List Cell) : Cell :=
  if values.isEmpty then some 0 else nanmean values

/-- `compute_rolling_average` from `src/utils.py`:
`series.rolling(window=window, min_periods=1).mean()`.  Position `i` looks at
the last `window` positions ending at `i` (fewer at the start) and takes the
mean of their non-NaN entries; the result is NaN when that slice holds no
non-NaN entry. -/
def compute_rolling_average (series : List Cell) (window : Nat) : List Cell :=
  (List.range series.length).map (fun i =>
    nanmean ((series.take (i + 1)).drop (i + 1 - window)))

/-- `FatigueInputs` from `src/models.py`. -/
structure FatigueInputs where
  rest_days : ℤ
  is_home : Bool
  minutes_last_game : ℚ

/-- `calculate_fatigue_score` from `src/models.py`. -/
def calculate_fatigue_score (inputs : FatigueInputs) : ℚ :=
  let rest_component := clamp ((100 : ℚ) - (inputs.rest_days : ℚ) * 15) 0 100
  let travel_component : ℚ := if ¬ inputs.is_home then 10 else 0
  let minutes_component := clamp ((inputs.minutes_last_game / 48) * 40) 0 40
  let raw_score := rest_component + travel_component + minutes_component
  clamp raw_score 0 100

/-- A data-frame row: the `Player` name column plus the numeric cells,
looked up by column name (`none` = NaN / missing). -/
structure Row where
  player : String
  cell : String → Cell

/-- A pandas data frame: its column names and its rows. -/
structure DataFrame where
  cols : List String
  rows : List Row

/-- Insert into a sorted list according to a boolean `le` (helper for the
stable insertion sort used to model sorting of rows / neighbor ordering). -/
def insertLe {α : Type} (le : α → α → Bool) (a : α) : List α → List α
  | [] => [a]
  | b :: bs => if le a b then a :: b :: bs else b :: insertLe le a bs

/-- Stable insertion sort by a boolean `le`. -/
def sortLe {α : Type} (le : α → α → Bool) : List α → List α
  | [] => []
  | a :: as => insertLe le a (sortLe le as)

/-- Ordering of rows by the `GAME_DATE` cell, NaN sorted last, as in
`game_log.sort_values("GAME_DATE")`. -/
def dateLe (r1 r2 : Row) : Bool :=
  match r1.cell "GAME_DATE", r2.cell "GAME_DATE" with
  | some a, some b => decide (a ≤ b)
  | some _, none => true
  | none, some _ => false
  | none, none => true

/-- numpy comparison `a > b`: `false` whenever either side is NaN. -/
def nanGt : Cell → Cell → Bool
  | some a, some b => decide (b < a)
  | _, _ => false

/-- numpy comparison `a < b`: `false` whenever either side is NaN. -/
def nanLt : Cell → Cell → Bool
  | some a, some b => decide (a < b)
  | _, _ => false

/-- Multiplication of a possibly-NaN value by a scalar (NaN propagates). -/
def nanMulC (a : Cell) (c : ℚ) : Cell := a.map (· * c)

/-- The `np.where` cascade of `build_prop_validator`: `"Hot Streak"` when
`rolling > season_avg * 1.2`, else `"Cold Streak"` when
`rolling < season_avg * 0.8`, else `"Neutral"`. -/
def signalOf (rolling season : Cell) : String :=
  if nanGt rolling (nanMulC season (6/5)) then "Hot Streak"
  else if nanLt rolling (nanMulC season (4/5)) then "Cold Streak"
  else "Neutral"

/-- A row of the validator output: the original row with its `Rolling_Avg`,
`Season_Avg` and `Signal` values. -/
structure PropRow where
  base : Row
  rolling : Cell
  season : Cell
  signal : String

/-- The validator output frame. -/
structure PropFrame where
  cols : List String
  rows : List PropRow

/-- The empty `pd.DataFrame()` returned on the guard path. -/
def emptyPropFrame : PropFrame := ⟨[], []⟩

/-- `build_prop_validator` from `src/models.py`.  Empty result when the game
log is empty or lacks the stat column; otherwise the rows are sorted by
`GAME_DATE` when that column exists, and the three derived columns are
appended (column assignment in pandas appends the name only when it is not
already present). -/
def build_prop_validator (game_log : DataFrame) (stat_col : String) : PropFrame :=
  if game_log.rows.isEmpty ∨ stat_col ∉ game_log.cols then emptyPropFrame
  else
    let sorted_rows :=
      if "GAME_DATE" ∈ game_log.cols then sortLe dateLe game_log.rows
      else game_log.rows
    let stat_series := sorted_rows.map (fun r => r.cell stat_col)
    let rolling_series := compute_rolling_average stat_series 5
    let season_avg := safe_mean stat_series
    { cols := game_log.cols ++
        (["Rolling_Avg", "Season_Avg", "Signal"].filter
          (fun c => decide (c ∉ game_log.cols))),
      rows := (sorted_rows.zip rolling_series).map (fun p =>
        ⟨p.1, p.2, season_avg, signalOf p.2 season_avg⟩) }

/-- The raw feature vector of a row: `row[feature_cols].fillna(0)`. -/
def featureVector (feature_cols : List String) (r : Row) : List ℚ :=
  feature_cols.map (fun c => (r.cell c).getD 0)

/-- Mean of feature column `j` of the fitted matrix (`StandardScaler.fit`). -/
def colMean (m : List (List ℚ)) (j : Nat) : ℚ :=
  (m.map (fun v => v.getD j 0)).sum / m.length

/-- Population variance of feature column `j` (`StandardScaler` uses the
biased variance). -/
def colVar (m : List (List ℚ)) (j : Nat) : ℚ :=
  (m.map (fun v => (v.getD j 0 - colMean m j) ^ 2)).sum / m.length

/-- `StandardScaler` divides column `j` by `sqrt(var_j)`, replacing a zero
standard deviation by 1 (`_handle_zeros_in_scale`).  The euclidean distance
between two scaled vectors is therefore `sqrt (Σ_j (x_j - y_j)^2 / var'_j)`
with `var'_j = 1` when `var_j = 0`; since `sqrt` is monotone, neighbor
ordering is fully determined by this squared scaled distance, which stays in
ℚ. -/
def scaledSqDist (m : List (List ℚ)) (nf : Nat) (x y : List ℚ) : ℚ :=
  ((List.range nf).map (fun j =>
    (x.getD j 0 - y.getD j 0) ^ 2 /
      (if colVar m j = 0 then 1 else colVar m j))).sum

/-- Neighbor ordering used by `model.kneighbors`: ascending (squared scaled)
distance to the query, ties broken by ascending row index (the tie order
among exactly coincident points is an implementation detail of the library;
we fix the deterministic index order). -/
def neighborLe (m : List (List ℚ)) (nf : Nat) (q : List ℚ) (i j : Nat) : Bool :=
  decide (scaledSqDist m nf (m.getD i []) q < scaledSqDist m nf (m.getD j []) q) ||
    (decide (scaledSqDist m nf (m.getD i []) q = scaledSqDist m nf (m.getD j []) q) &&
      decide (i ≤ j))

/-- `model.kneighbors(q, n_neighbors=k)` on a model fitted with matrix `m`:
sklearn raises `ValueError: Expected n_neighbors <= n_samples_fit` when `k`
exceeds the number of fitted samples; otherwise it returns the indices of
the `k` nearest rows in ascending distance order. -/
def kneighborsIdx (m : List (List ℚ)) (nf : Nat) (q : List ℚ) (k : Nat) :
    Except String (List Nat) :=
  if m.length < k then Except.error "Expected n_neighbors <= n_samples_fit"
  else Except.ok ((sortLe (neighborLe m nf q) (List.range m.length)).take k)

/-- `find_player_comps` from `src/models.py`, modelled down to the indices of
the returned comparison rows (`comps = stats.iloc[comp_indices]`): empty
result when the table is empty or a feature column is missing.  Past that
guard the code calls `build_similarity_model` BEFORE the player-match check;
`StandardScaler.fit_transform` on the resulting (n, 0) matrix raises
`ValueError: Found array with 0 feature(s) ...` when `feature_cols` is empty
(the guard is vacuous for an empty list).  Otherwise: empty result when no
row's `Player` equals `player_name`; else the first of the 4 neighbors of
the first matching row is dropped and the remaining 3 indices are returned.
The `SimilarityScore` column computed on the way out is modelled separately
by `similarityScores` on the neighbor distance vector. -/
def find_player_comps (stats : DataFrame) (player_name : String)
    (feature_cols : List String) : Except String (List Nat) :=
  if stats.rows.isEmpty ∨ ∃ c ∈ feature_cols, c ∉ stats.cols then
    Except.ok []
  else if feature_cols.isEmpty then
    Except.error "Found array with 0 feature(s) while a minimum of 1 is required"
  else
    let m := stats.rows.map (featureVector feature_cols)
    match stats.rows.filter (fun r => r.player == player_name) with
    | [] => Except.ok []
    | pr :: _ =>
      match kneighborsIdx m feature_cols.length (featureVector feature_cols pr) 4 with
      | Except.error e => Except.error e
      | Except.ok idxs => Except.ok (idxs.drop 1)

/-- Maximum entry of a distance vector (`distances[0][1:].max()`); the
vector is nonempty whenever this is used. -/
def distMax (ds : List ℚ) : ℚ := ds.foldl max ds.headI

/-- The `SimilarityScore` assignment of `find_player_comps`
(`src/models.py` line 60): `1 - (d / max(d.max(), 1e-6))` applied entrywise
to the distance vector of the returned neighbors. -/
def similarityScores (ds : List ℚ) : List ℚ :=
  ds.map (fun d => 1 - d / max (distMax ds) (1 / 1000000))

theorem length_insertLe {α : Type} (le : α → α → Bool) (a : α) (l : List α) :
    (insertLe le a l).length = l.length + 1 := by
  induction l with
  | nil => rfl
  | cons b bs ih =>
    simp only [insertLe]
    split <;> simp [ih]

theorem length_sortLe {α : Type} (le : α → α → Bool) (l : List α) :
    (sortLe le l).length = l.length := by
  induction l with
  | nil => rfl
  | cons a as ih => simp [sortLe, length_insertLe, ih]

theorem length_compute_rolling_average (series : List Cell) (window : Nat) :
    (compute_rolling_average series window).length = series.length := by
  simp [compute_rolling_average]

theorem clamp_lower_le (value lower upper : ℚ) : lower ≤ clamp value lower upper :=
  le_max_left _ _

theorem clamp_le_upper (value lower upper : ℚ) (h : lower ≤ upper) :
    clamp value lower upper ≤ upper :=
  max_le h (min_le_right _ _)

/-- C1: `calculate_fatigue_score` computes
`clamp(clamp(100 - rest_days*15, 0, 100) + (10 if not is_home else 0)
+ clamp((minutes_last_game/48)*40, 0, 40), 0, 100)`; in particular the
result always lies in [0, 100], and the score of (0 rest days, away,
48 minutes) is 100. -/
theorem calculate_fatigue_score_spec (inputs : FatigueInputs) :
    calculate_fatigue_score inputs =
      clamp (clamp ((100 : ℚ) - (inputs.rest_days : ℚ) * 15) 0 100 +
        (if ¬ inputs.is_home then (10 : ℚ) else 0) +
        clamp ((inputs.minutes_last_game / 48) * 40) 0 40) 0 100 ∧
    0 ≤ calculate_fatigue_score inputs ∧
    calculate_fatigue_score inputs ≤ 100 ∧
    calculate_fatigue_score ⟨0, false, 48⟩ = 100 := by
  refine ⟨rfl, clamp_lower_le _ _ _, clamp_le_upper _ _ _ (by norm_num), ?_⟩
  norm_num [calculate_fatigue_score, clamp]

/-- C3 counterexample: on a non-empty input whose entries are all NaN,
`safe_mean` returns `np.nanmean` of the list, which is NaN (`none`), not
0.0 as claimed. -/
theorem safe_mean_all_nan_counterexample :
    safe_mean [none, none] = none ∧ safe_mean [none, none] ≠ some (0 : ℚ) := by
  have h : safe_mean [none, none] = none := rfl
  exact ⟨h, by rw [h]; simp⟩

/-- C3 (amended): `safe_mean` returns 0.0 on an empty input, the mean of the
non-NaN values when at least one is present, and NaN (not 0.0) on a
non-empty input with no non-NaN value; `safe_mean [2, 4, NaN] = 3`.  It is a
total function, so it never raises. -/
theorem safe_mean_spec (values : List Cell) :
    (values = [] → safe_mean values = some 0) ∧
    (values.filterMap id ≠ [] →
      safe_mean values =
        some ((values.filterMap id).sum / (values.filterMap id).length)) ∧
    (values ≠ [] → values.filterMap id = [] → safe_mean values = none) ∧
    safe_mean [some 2, some 4, none] = some 3 := by
  refine ⟨?_, ?_, ?_, ?_⟩
  · intro h; subst h; rfl
  · intro h
    have hne : values.isEmpty = false := by
      rcases values with _ | ⟨a, as⟩
      · exact absurd rfl h
      · rfl
    simp [safe_mean, nanmean, hne, h]
  · intro hne hfm
    have hne' : values.isEmpty = false := by
      rcases values with _ | ⟨a, as⟩
      · exact absurd rfl hne
      · rfl
    simp [safe_mean, nanmean, hne', hfm]
  · have h : ([some 2, some 4, none] : List Cell).filterMap id = [2, 4] := rfl
    simp [safe_mean, nanmean, h]
    norm_num

/-- Witness for C3's amended theorem at the empty input. -/
theorem safe_mean_spec_witness : safe_mean [] = some 0 :=
  (safe_mean_spec []).1 rfl

theorem filterMap_id_map_some (l : List ℚ) : (l.map some).filterMap id = l := by
  induction l with
  | nil => rfl
  | cons a as ih => simp [ih]

theorem nanmean_map_some (l : List ℚ) (h : l ≠ []) :
    nanmean (l.map some) = some (l.sum / l.length) := by
  have hf := filterMap_id_map_some l
  simp [nanmean, hf, h]

theorem compute_rolling_average_getD (series : List Cell) (window : Nat)
    (i : Nat) (hi : i < series.length) :
    (compute_rolling_average series window).getD i none =
      nanmean ((series.take (i + 1)).drop (i + 1 - window)) := by
  simp [compute_rolling_average, List.getD_eq_getElem?_getD, hi]

/-- C6: for `window ≥ 1`, the rolling average has the length of its input,
position `i` holds the mean of the up-to-`window` most recent values ending
at `i` (never empty, so position 0 holds the first value), and
`rolling_average [10] 5 = [10]`, `rolling_average [10,20,30] 2 =
[10, 15, 25]`. -/
theorem compute_rolling_average_spec (s : List ℚ) (window : Nat)
    (hw : 1 ≤ window) :
    (compute_rolling_average (s.map some) window).length = s.length ∧
    (∀ i, i < s.length →
      (s.drop (i + 1 - window)).take (min window (i + 1)) ≠ [] ∧
      (compute_rolling_average (s.map some) window).getD i none =
        some (((s.drop (i + 1 - window)).take (min window (i + 1))).sum /
          ((s.drop (i + 1 - window)).take (min window (i + 1))).length)) ∧
    (s ≠ [] →
      (compute_rolling_average (s.map some) window).getD 0 none = some s.headI) ∧
    compute_rolling_average [some 10] 5 = [some 10] ∧
    compute_rolling_average [some 10, some 20, some 30] 2 =
      [some 10, some 15, some 25] := by
  have key : ∀ i, i < s.length →
      (s.drop (i + 1 - window)).take (min window (i + 1)) ≠ [] ∧
      (compute_rolling_average (s.map some) window).getD i none =
        some (((s.drop (i + 1 - window)).take (min window (i + 1))).sum /
          ((s.drop (i + 1 - window)).take (min window (i + 1))).length) := by
    intro i hi
    have hslice : (s.take (i + 1)).drop (i + 1 - window) =
        (s.drop (i + 1 - window)).take (min window (i + 1)) := by
      rw [List.drop_take]
      congr 1
      omega
    have hlen : (((s.drop (i + 1 - window)).take (min window (i + 1)))).length =
        min window (i + 1) := by
      rw [List.length_take, List.length_drop]
      omega
    have hne : (s.drop (i + 1 - window)).take (min window (i + 1)) ≠ [] := by
      intro hz
      rw [hz] at hlen
      simp at hlen
      omega
    refine ⟨hne, ?_⟩
    have hi' : i < (s.map some).length := by simpa using hi
    have hmap : ((s.map some).take (i + 1)).drop (i + 1 - window) =
        ((s.take (i + 1)).drop (i + 1 - window)).map some := by
      simp [List.map_take, List.map_drop]
    rw [compute_rolling_average_getD _ _ _ hi', hmap, hslice,
      nanmean_map_some _ hne]
  refine ⟨by simp [length_compute_rolling_average], key, ?_, ?_, ?_⟩
  · intro hne
    rcases s with _ | ⟨a, as⟩
    · exact absurd rfl hne
    · have h := (key 0 (by simp)).2
      have h10 : 1 - window = 0 := by omega
      have hmin : min window 1 = 1 := by omega
      rw [h10, hmin] at h
      simpa using h
  · norm_num [compute_rolling_average, nanmean, List.range_succ,
      List.filterMap_cons]
    simp
  · norm_num [compute_rolling_average, nanmean, List.range_succ,
      List.filterMap_cons]
    simp

/-- Witness for C6 at the concrete input `[10, 20, 30]` with window 2. -/
theorem compute_rolling_average_spec_witness :
    compute_rolling_average [some 10, some 20, some 30] 2 =
      [some 10, some 15, some 25] :=
  (compute_rolling_average_spec [10, 20, 30] 2 (by norm_num)).2.2.2.2

theorem le_foldl_max (l : List ℚ) (b : ℚ) : b ≤ l.foldl max b := by
  induction l generalizing b with
  | nil => simp
  | cons a as ih => exact le_trans (le_max_left b a) (ih (max b a))

theorem mem_le_foldl_max (l : List ℚ) (b d : ℚ) (hd : d ∈ l) :
    d ≤ l.foldl max b := by
  induction l generalizing b with
  | nil => cases hd
  | cons a as ih =>
    rcases List.mem_cons.mp hd with rfl | h
    · exact le_trans (le_max_right b d) (le_foldl_max as (max b d))
    · exact ih (max b a) h

theorem le_distMax (ds : List ℚ) (d : ℚ) (hd : d ∈ ds) : d ≤ distMax ds :=
  mem_le_foldl_max ds ds.headI d hd

theorem getD_map_lt (f : ℚ → ℚ) (l : List ℚ) (i : Nat) (hi : i < l.length) :
    (l.map f).getD i 0 = f (l.getD i 0) := by
  rw [List.getD_eq_getElem?_getD, List.getD_eq_getElem?_getD, List.getElem?_map,
    List.getElem?_eq_getElem hi]
  rfl

/-- C5: each returned row's similarity score is
`1 - distance / max(max distance among the returned rows, 1e-6)`; every
score lies in [0, 1]; a row at the maximal distance scores exactly 0 once
that maximum exceeds 1e-6; a row at distance 0 (a feature vector identical
to the query's) scores exactly 1. -/
theorem similarityScores_spec (ds : List ℚ) (hne : ds ≠ [])
    (hnn : ∀ d ∈ ds, 0 ≤ d) :
    (∀ i, i < ds.length → (similarityScores ds).getD i 0 =
      1 - ds.getD i 0 / max (distMax ds) (1/1000000)) ∧
    (∀ x ∈ similarityScores ds, 0 ≤ x ∧ x ≤ 1) ∧
    (∀ i, i < ds.length → ds.getD i 0 = distMax ds → 1/1000000 < distMax ds →
      (similarityScores ds).getD i 0 = 0) ∧
    (∀ i, i < ds.length → ds.getD i 0 = 0 →
      (similarityScores ds).getD i 0 = 1) := by
  have hM : (0 : ℚ) < max (distMax ds) (1/1000000) :=
    lt_of_lt_of_le (by norm_num) (le_max_right _ _)
  have hgetD : ∀ i, i < ds.length → (similarityScores ds).getD i 0 =
      1 - ds.getD i 0 / max (distMax ds) (1/1000000) := by
    intro i hi
    exact getD_map_lt _ ds i hi
  refine ⟨hgetD, ?_, ?_, ?_⟩
  · intro x hx
    obtain ⟨d, hd, rfl⟩ := List.mem_map.mp hx
    constructor
    · have hdle : d ≤ max (distMax ds) (1/1000000) :=
        le_trans (le_distMax ds d hd) (le_max_left _ _)
      have : d / max (distMax ds) (1/1000000) ≤ 1 := (div_le_one hM).mpr hdle
      linarith
    · have : 0 ≤ d / max (distMax ds) (1/1000000) :=
        div_nonneg (hnn d hd) hM.le
      linarith
  · intro i hi hdmax hgt
    rw [hgetD i hi, hdmax, max_eq_left hgt.le,
      div_self (ne_of_gt (lt_trans (by norm_num) hgt))]
    ring
  · intro i hi hd0
    rw [hgetD i hi, hd0, zero_div, sub_zero]

/-- Witness for C5 at the concrete distance vector `[0, 2]`. -/
theorem similarityScores_spec_witness :
    (similarityScores [0, 2]).getD 0 0 = 1 ∧
    (similarityScores [0, 2]).getD 1 0 = 0 := by
  have hmax : distMax [0, 2] = 2 := by norm_num [distMax]
  have h := similarityScores_spec [0, 2] (by simp)
    (by intro d hd; fin_cases hd <;> norm_num)
  exact ⟨h.2.2.2 0 (by norm_num) rfl,
    h.2.2.1 1 (by norm_num) (by rw [hmax]; rfl) (by rw [hmax]; norm_num)⟩

theorem prop_row_signal {gl : DataFrame} {stat_col : String} {pr : PropRow}
    (h : pr ∈ (build_prop_validator gl stat_col).rows) :
    pr.signal = signalOf pr.rolling pr.season := by
  rw [build_prop_validator] at h
  split at h
  · simp [emptyPropFrame] at h
  · simp only [List.mem_map] at h
    obtain ⟨p, hp, rfl⟩ := h
    rfl

/-- C9: in a validator result whose season average is 0, any row with a
positive rolling average is labeled "Hot Streak" and no row with a
nonnegative rolling average is labeled "Cold Streak" (both thresholds
collapse to 0). -/
theorem build_prop_validator_zero_season (gl : DataFrame) (stat_col : String)
    (pr : PropRow) (h : pr ∈ (build_prop_validator gl stat_col).rows)
    (hs : pr.season = some 0) :
    (∀ r : ℚ, pr.rolling = some r → 0 < r → pr.signal = "Hot Streak") ∧
    (∀ r : ℚ, pr.rolling = some r → 0 ≤ r → pr.signal ≠ "Cold Streak") := by
  have hsig := prop_row_signal h
  constructor
  · intro r hr hpos
    rw [hsig, hr, hs]
    simp [signalOf, nanGt, nanMulC, hpos]
  · intro r hr hge
    rw [hsig, hr, hs]
    have hnlt : ¬ (r < (0 : ℚ) * (4/5)) := by
      rw [zero_mul]
      exact not_lt.mpr hge
    simp only [signalOf, nanGt, nanLt, nanMulC, Option.map_some', zero_mul]
    split_ifs <;> simp_all <;> linarith

/-- A concrete game log whose stat column has season average 0. -/
def rowA : Row := ⟨"A", fun c => if c = "PTS" then some 2 else none⟩

def rowB : Row := ⟨"B", fun c => if c = "PTS" then some (-2) else none⟩

def glZ : DataFrame := ⟨["PTS"], [rowA, rowB]⟩

def prZ : PropRow := ⟨rowA, some 2, some 0, "Hot Streak"⟩

theorem glZ_rows_eval : (build_prop_validator glZ "PTS").rows =
    [prZ, ⟨rowB, some 0, some 0, "Neutral"⟩] := by
  rw [build_prop_validator, if_neg (by decide), if_neg (by decide)]
  norm_num [glZ, rowA, rowB, prZ, compute_rolling_average,
    nanmean, safe_mean, signalOf, nanGt, nanLt, nanMulC, List.range_succ,
    List.filterMap_cons]
  decide

/-- Witness for C9 at a concrete two-game log with values 2 and -2. -/
theorem build_prop_validator_zero_season_witness :
    prZ ∈ (build_prop_validator glZ "PTS").rows ∧ prZ.signal = "Hot Streak" := by
  have hmem : prZ ∈ (build_prop_validator glZ "PTS").rows := by
    rw [glZ_rows_eval]
    exact List.mem_cons_self _ _
  exact ⟨hmem, (build_prop_validator_zero_season glZ "PTS" prZ hmem rfl).1 2 rfl
    (by norm_num)⟩

/-- C4 (amended): each validator row is labeled "Hot Streak" exactly when
`rolling > season*1.2`, "Cold Streak" exactly when it is not Hot and
`rolling < season*0.8`, and "Neutral" otherwise.  When the season average is
nonnegative (finite values), "Cold Streak" is exactly `rolling < season*0.8`
and a tie at exactly 1.2x or 0.8x the season average is labeled "Neutral";
for a negative season average a tie at 1.2x falls below 0.8x and is labeled
"Cold Streak" instead. -/
theorem build_prop_validator_signal_spec (gl : DataFrame) (stat_col : String)
    (pr : PropRow) (h : pr ∈ (build_prop_validator gl stat_col).rows) :
    (pr.signal = "Hot Streak" ↔
      nanGt pr.rolling (nanMulC pr.season (6/5)) = true) ∧
    (pr.signal = "Cold Streak" ↔
      (nanGt pr.rolling (nanMulC pr.season (6/5)) = false ∧
        nanLt pr.rolling (nanMulC pr.season (4/5)) = true)) ∧
    (pr.signal = "Neutral" ↔
      (nanGt pr.rolling (nanMulC pr.season (6/5)) = false ∧
        nanLt pr.rolling (nanMulC pr.season (4/5)) = false)) ∧
    (∀ r s0 : ℚ, pr.rolling = some r → pr.season = some s0 → 0 ≤ s0 →
      ((pr.signal = "Cold Streak" ↔ r < s0 * (4/5)) ∧
        ((r = s0 * (6/5) ∨ r = s0 * (4/5)) → pr.signal = "Neutral"))) := by
  have hsig := prop_row_signal h
  have hHC : ("Hot Streak" : String) ≠ "Cold Streak" := by decide
  have hHN : ("Hot Streak" : String) ≠ "Neutral" := by decide
  have hCN : ("Cold Streak" : String) ≠ "Neutral" := by decide
  have base :
      (pr.signal = "Hot Streak" ↔
        nanGt pr.rolling (nanMulC pr.season (6/5)) = true) ∧
      (pr.signal = "Cold Streak" ↔
        (nanGt pr.rolling (nanMulC pr.season (6/5)) = false ∧
          nanLt pr.rolling (nanMulC pr.season (4/5)) = true)) ∧
      (pr.signal = "Neutral" ↔
        (nanGt pr.rolling (nanMulC pr.season (6/5)) = false ∧
          nanLt pr.rolling (nanMulC pr.season (4/5)) = false)) := by
    rw [hsig]
    unfold signalOf
    cases hgt : nanGt pr.rolling (nanMulC pr.season (6/5)) <;>
      cases hlt : nanLt pr.rolling (nanMulC pr.season (4/5)) <;>
        simp [hHC, hHN, hCN, hHC.symm, hHN.symm, hCN.symm]
  refine ⟨base.1, base.2.1, base.2.2, ?_⟩
  intro r s0 hr hs hs0
  have hgt_t : nanGt pr.rolling (nanMulC pr.season (6/5)) = true ↔
      s0 * (6/5) < r := by
    rw [hr, hs]; simp [nanGt, nanMulC]
  have hgt_f : nanGt pr.rolling (nanMulC pr.season (6/5)) = false ↔
      ¬ s0 * (6/5) < r := by
    rw [hr, hs]; simp [nanGt, nanMulC]
  have hlt_t : nanLt pr.rolling (nanMulC pr.season (4/5)) = true ↔
      r < s0 * (4/5) := by
    rw [hr, hs]; simp [nanLt, nanMulC]
  have hlt_f : nanLt pr.rolling (nanMulC pr.season (4/5)) = false ↔
      ¬ r < s0 * (4/5) := by
    rw [hr, hs]; simp [nanLt, nanMulC]
  constructor
  · constructor
    · intro hc
      exact hlt_t.mp (base.2.1.mp hc).2
    · intro hrlt
      refine base.2.1.mpr ⟨hgt_f.mpr ?_, hlt_t.mpr hrlt⟩
      intro hgt
      linarith
  · intro htie
    refine base.2.2.mpr ⟨hgt_f.mpr ?_, hlt_f.mpr ?_⟩
    · rcases htie with rfl | rfl
      · exact lt_irrefl _
      · intro hgt
        linarith
    · rcases htie with rfl | rfl
      · intro hlt2
        linarith
      · exact lt_irrefl _

/-- A game log whose stat column is [-6, -4]: its season average is -5 and
the first rolling average is -6 = 1.2 x (-5), an exact tie at the Hot
threshold with a negative season average. -/
def rowN1 : Row := ⟨"A", fun c => if c = "PTS" then some (-6) else none⟩

def rowN2 : Row := ⟨"B", fun c => if c = "PTS" then some (-4) else none⟩

def glNeg : DataFrame := ⟨["PTS"], [rowN1, rowN2]⟩

/-- C4 counterexample: in the game log with stat values [-6, -4] the first
row has rolling average -6 and season average -5, so its rolling average is
exactly 1.2x the season average, yet the code labels it "Cold Streak", not
"Neutral" (with a negative season average 1.2x lies below 0.8x). -/
theorem build_prop_validator_tie_counterexample :
    ((build_prop_validator glNeg "PTS").rows.map
      (fun pr => (pr.rolling, pr.season, pr.signal))).head? =
        some (some (-6), some (-5), "Cold Streak") ∧
    (-6 : ℚ) = (-5) * (6/5) ∧ ("Cold Streak" : String) ≠ "Neutral" := by
  refine ⟨?_, by norm_num, by decide⟩
  rw [build_prop_validator, if_neg (by decide), if_neg (by decide)]
  norm_num [glNeg, rowN1, rowN2, compute_rolling_average, nanmean, safe_mean,
    signalOf, nanGt, nanLt, nanMulC, List.range_succ, List.filterMap_cons]
  decide

/-- A one-signal game log with stat values [6, 4]: season average 5,
first rolling average 6 = 1.2 x 5, a tie at the Hot threshold with a
nonnegative season average. -/
def rowW1 : Row := ⟨"A", fun c => if c = "PTS" then some 6 else none⟩

def rowW2 : Row := ⟨"B", fun c => if c = "PTS" then some 4 else none⟩

def glW : DataFrame := ⟨["PTS"], [rowW1, rowW2]⟩

def prW : PropRow := ⟨rowW1, some 6, some 5, "Neutral"⟩

theorem glW_rows_eval : (build_prop_validator glW "PTS").rows =
    [prW, ⟨rowW2, some 5, some 5, "Neutral"⟩] := by
  rw [build_prop_validator, if_neg (by decide), if_neg (by decide)]
  norm_num [glW, rowW1, rowW2, prW, compute_rolling_average, nanmean,
    safe_mean, signalOf, nanGt, nanLt, nanMulC, List.range_succ,
    List.filterMap_cons]
  decide

/-- Witness for C4 on the log [6, 4]: the first row ties at exactly 1.2x a
nonnegative season average and is labeled "Neutral". -/
theorem build_prop_validator_signal_spec_witness :
    prW ∈ (build_prop_validator glW "PTS").rows ∧ prW.signal = "Neutral" := by
  have hmem : prW ∈ (build_prop_validator glW "PTS").rows := by
    rw [glW_rows_eval]
    exact List.mem_cons_self _ _
  refine ⟨hmem, ?_⟩
  exact ((build_prop_validator_signal_spec glW "PTS" prW hmem).2.2.2 6 5 rfl rfl
    (by norm_num)).2 (Or.inl (by norm_num))

/-- C7: `build_prop_validator` returns the empty frame (without raising)
when the game log is empty or lacks the stat column; otherwise it keeps
every row and extends the original columns with `Rolling_Avg`, `Season_Avg`
and `Signal`. -/
theorem build_prop_validator_guards (gl : DataFrame) (stat_col : String) :
    (gl.rows = [] ∨ stat_col ∉ gl.cols →
      build_prop_validator gl stat_col = emptyPropFrame) ∧
    (gl.rows ≠ [] → stat_col ∈ gl.cols →
      (build_prop_validator gl stat_col).rows.length = gl.rows.length ∧
      ("Rolling_Avg" ∉ gl.cols → "Season_Avg" ∉ gl.cols → "Signal" ∉ gl.cols →
        (build_prop_validator gl stat_col).cols =
          gl.cols ++ ["Rolling_Avg", "Season_Avg", "Signal"])) := by
  constructor
  · intro h
    rw [build_prop_validator, if_pos]
    rcases h with h | h
    · left
      simp [h]
    · right
      exact h
  · intro hrows hcol
    have hcond : ¬ (gl.rows.isEmpty = true ∨ stat_col ∉ gl.cols) := by
      push_neg
      exact ⟨by simp [hrows], hcol⟩
    rw [build_prop_validator, if_neg hcond]
    constructor
    · have hs : (if "GAME_DATE" ∈ gl.cols then sortLe dateLe gl.rows
          else gl.rows).length = gl.rows.length := by
        split
        · exact length_sortLe _ _
        · rfl
      simp [List.length_zip, length_compute_rolling_average, hs]
    · intro h1 h2 h3
      simp [List.filter, h1, h2, h3]

/-- Witness for C7: a nonempty one-column log gets the three derived
columns appended. -/
theorem build_prop_validator_guards_witness :
    glW.rows ≠ [] ∧ "PTS" ∈ glW.cols ∧
    (build_prop_validator glW "PTS").cols =
      ["PTS", "Rolling_Avg", "Season_Avg", "Signal"] := by
  have h := ((build_prop_validator_guards glW "PTS").2 (by simp [glW])
    (by decide)).2 (by decide) (by decide) (by decide)
  exact ⟨by simp [glW], by decide, by rw [h]; rfl⟩

/-- A row holding a single numeric `PTS` cell. -/
def rowD (name : String) (v : ℚ) : Row :=
  ⟨name, fun c => if c = "PTS" then some v else none⟩

/-- A league table of exactly 2 distinct players. -/
def twoDF : DataFrame := ⟨["PTS"], [rowD "A" 1, rowD "B" 2]⟩

/-- A league table of 4 distinct players. -/
def fourDF : DataFrame :=
  ⟨["PTS"], [rowD "A" 1, rowD "B" 2, rowD "C" 3, rowD "D" 5]⟩

/-- C8 (amended): `find_player_comps` returns the empty result (without
raising) when the league table is empty or a requested feature column is
missing, and, provided the feature list is non-empty, also when no row's
Player column equals the requested name.  With a non-empty table and an
empty feature list the scaler is fitted on a 0-feature matrix and raises
before the player-match check, so an unmatched player name does not yield
an empty result there. -/
theorem find_player_comps_guards (stats : DataFrame) (player_name : String)
    (feature_cols : List String) :
    (stats.rows = [] ∨ (∃ c ∈ feature_cols, c ∉ stats.cols) →
      find_player_comps stats player_name feature_cols = Except.ok []) ∧
    (feature_cols ≠ [] →
      stats.rows.filter (fun r => r.player == player_name) = [] →
      find_player_comps stats player_name feature_cols = Except.ok []) ∧
    (stats.rows ≠ [] → feature_cols = [] →
      find_player_comps stats player_name feature_cols = Except.error
        "Found array with 0 feature(s) while a minimum of 1 is required") := by
  refine ⟨?_, ?_, ?_⟩
  · intro h
    rcases h with h | h
    · rw [find_player_comps, if_pos (Or.inl (by simp [h]))]
    · rw [find_player_comps, if_pos (Or.inr h)]
  · intro hfc hfil
    by_cases hg : (stats.rows.isEmpty = true ∨ ∃ c ∈ feature_cols, c ∉ stats.cols)
    · rw [find_player_comps, if_pos hg]
    · rw [find_player_comps, if_neg hg, if_neg (by simp [hfc])]
      simp only [hfil]
  · intro hrows hfc
    have hg : ¬ (stats.rows.isEmpty = true ∨
        ∃ c ∈ feature_cols, c ∉ stats.cols) := by
      push_neg
      refine ⟨by simp [hrows], ?_⟩
      simp [hfc]
    rw [find_player_comps, if_neg hg, if_pos (by simp [hfc])]

/-- A league table with one row. -/
def oneDF : DataFrame := ⟨["PTS"], [rowD "A" 1]⟩

/-- C8 counterexample: with a non-empty table, an empty feature list (which
satisfies the missing-column guard vacuously) and a player name matching no
row, the code does not return an empty result: `build_similarity_model`
runs before the player-match check and `StandardScaler` raises ValueError
on the (1, 0) feature matrix. -/
theorem find_player_comps_no_features_counterexample :
    oneDF.rows.filter (fun r => r.player == "Z") = [] ∧
    find_player_comps oneDF "Z" ([] : List String) = Except.error
      "Found array with 0 feature(s) while a minimum of 1 is required" ∧
    find_player_comps oneDF "Z" ([] : List String) ≠ Except.ok [] := by
  have h : find_player_comps oneDF "Z" ([] : List String) = Except.error
      "Found array with 0 feature(s) while a minimum of 1 is required" := by
    rw [find_player_comps, if_neg (by decide), if_pos (by decide)]
  exact ⟨rfl, h, by rw [h]; simp⟩

/-- Witness for C8's amended theorem: empty table and unmatched-player
cases both give the empty result. -/
theorem find_player_comps_guards_witness :
    find_player_comps ⟨["PTS"], []⟩ "A" ["PTS"] = Except.ok [] ∧
    find_player_comps oneDF "Z" ["PTS"] = Except.ok [] := by
  refine ⟨(find_player_comps_guards ⟨["PTS"], []⟩ "A" ["PTS"]).1 (Or.inl rfl), ?_⟩
  exact (find_player_comps_guards oneDF "Z" ["PTS"]).2.1
    (List.cons_ne_nil _ _) rfl

/-- C2 counterexample: on a table of n = 2 distinct players containing the
query player and the feature column, `find_player_comps` does not return
min(3, n-1) = 1 comparison rows — the `kneighbors` call is made with
n_neighbors = 4 > n_samples = 2 and raises. -/
theorem find_player_comps_small_table_counterexample :
    find_player_comps twoDF "A" ["PTS"] =
      Except.error "Expected n_neighbors <= n_samples_fit" := by
  rw [find_player_comps, if_neg (by decide), if_neg (by decide)]
  have hfil : twoDF.rows.filter (fun r => r.player == "A") = [rowD "A" 1] := rfl
  simp only [hfil]
  rw [kneighborsIdx, if_pos (by decide)]

/-- C2 (amended): when the query player matches and all feature columns are
present, `find_player_comps` returns exactly 3 comparison rows if the table
has at least 4 rows (n_neighbors = 4, the first returned neighbor dropped);
for a smaller nonempty table it does not return min(3, n-1) rows but fails,
because `kneighbors` requires n_neighbors = 4 <= n_samples. -/
theorem find_player_comps_count (stats : DataFrame) (player_name : String)
    (feature_cols : List String)
    (hmatch : stats.rows.filter (fun r => r.player == player_name) ≠ [])
    (hcols : ∀ c ∈ feature_cols, c ∈ stats.cols)
    (hfc : feature_cols ≠ []) :
    (4 ≤ stats.rows.length →
      (find_player_comps stats player_name feature_cols).toOption.map
        List.length = some 3) ∧
    (stats.rows.length < 4 →
      (find_player_comps stats player_name feature_cols).toOption = none) := by
  have hrows : stats.rows ≠ [] := by
    intro h0
    apply hmatch
    rw [h0]
    rfl
  have hcond : ¬ (stats.rows.isEmpty = true ∨
      ∃ c ∈ feature_cols, c ∉ stats.cols) := by
    push_neg
    exact ⟨by simp [hrows], hcols⟩
  rw [find_player_comps, if_neg hcond, if_neg (by simp [hfc])]
  rcases hfil : stats.rows.filter (fun r => r.player == player_name) with _ | ⟨pr, rest⟩
  · exact absurd hfil hmatch
  · simp only [hfil]
    constructor
    · intro h4
      rw [kneighborsIdx, if_neg (by simp; omega)]
      simp [Except.toOption, length_sortLe]
      omega
    · intro h4
      rw [kneighborsIdx, if_pos (by simp; omega)]
      rfl

/-- Witness for C2 on the 4-row table: exactly 3 comparison rows come
back. -/
theorem find_player_comps_count_witness :
    fourDF.rows.filter (fun r => r.player == "A") ≠ [] ∧
    (find_player_comps fourDF "A" ["PTS"]).toOption.map List.length =
      some 3 := by
  have h1 : fourDF.rows.filter (fun r => r.player == "A") = [rowD "A" 1] := rfl
  have h1' : fourDF.rows.filter (fun r => r.player == "A") ≠ [] := by
    rw [h1]
    exact List.cons_ne_nil _ _
  have h2 : ∀ c ∈ ["PTS"], c ∈ fourDF.cols := by decide
  exact ⟨h1', (find_player_comps_count fourDF "A" ["PTS"] h1' h2
    (List.cons_ne_nil _ _)).1 (by decide)⟩

/-- A row holding a single numeric `X` cell. -/
def rowX (name : String) (v : ℚ) : Row :=
  ⟨name, fun c => if c = "X" then some v else none⟩

/-- A league table in which row 0 ("Dup") has exactly the same feature
vector as the query player in row 1 ("Query"). -/
def dupDF : DataFrame :=
  ⟨["X"], [rowX "Dup" 1, rowX "Query" 1, rowX "C" 2, rowX "D" 5]⟩

/-- C10: `find_player_comps` drops the first neighbor returned by the
nearest-neighbor index (`indices[0][1:]`), not the row whose Player matches
`player_name`.  On `dupDF`, row 0 ("Dup") has the same feature vector as
the query row 1 ("Query"), ties with it at distance 0 and comes back first,
so the returned comparison rows are indices [1, 2, 3]: they include the
query player's own row (index 1) while the duplicate (index 0) was the row
dropped. -/
theorem find_player_comps_drops_first_neighbor :
    find_player_comps dupDF "Query" ["X"] = Except.ok [1, 2, 3] ∧
    (dupDF.rows.getD 0 (rowX "" 0)).player = "Dup" ∧
    (dupDF.rows.getD 1 (rowX "" 0)).player = "Query" ∧
    featureVector ["X"] (dupDF.rows.getD 0 (rowX "" 0)) =
      featureVector ["X"] (dupDF.rows.getD 1 (rowX "" 0)) ∧
    (1 : Nat) ∈ [1, 2, 3] ∧ (0 : Nat) ∉ ([1, 2, 3] : List Nat) := by
  refine ⟨?_, rfl, rfl, rfl, by decide, by decide⟩
  rw [find_player_comps, if_neg (by decide), if_neg (by decide)]
  have hm : dupDF.rows.map (featureVector ["X"]) = [[1], [1], [2], [5]] := rfl
  have hfil : dupDF.rows.filter (fun r => r.player == "Query") =
      [rowX "Query" 1] := rfl
  have hq : featureVector ["X"] (rowX "Query" 1) = [1] := rfl
  simp only [hm, hfil, hq]
  have hnf : (["X"] : List String).length = 1 := rfl
  have hml : ([[1], [1], [2], [5]] : List (List ℚ)).length = 4 := rfl
  simp only [hnf]
  rw [kneighborsIdx, if_neg (by decide)]
  simp only [hml]
  have hvar : colVar [[1], [1], [2], [5]] 0 = 43/16 := by
    norm_num [colVar, colMean]
  have hle01 : neighborLe [[1], [1], [2], [5]] 1 [1] 0 1 = true := by
    norm_num [neighborLe, scaledSqDist, hvar, List.range_succ, List.sum_cons,
      List.sum_nil]
  have hle12 : neighborLe [[1], [1], [2], [5]] 1 [1] 1 2 = true := by
    norm_num [neighborLe, scaledSqDist, hvar, List.range_succ, List.sum_cons,
      List.sum_nil]
  have hle23 : neighborLe [[1], [1], [2], [5]] 1 [1] 2 3 = true := by
    norm_num [neighborLe, scaledSqDist, hvar, List.range_succ, List.sum_cons,
      List.sum_nil]
  have hrange : List.range 4 = [0, 1, 2, 3] := rfl
  have hsort : sortLe (neighborLe [[1], [1], [2], [5]] 1 [1]) (List.range 4) =
      [0, 1, 2, 3] := by
    rw [hrange]
    simp [sortLe, insertLe, hle01, hle12, hle23]
  rw [hsort]
  rfl

end Signal
